import Mathlib

/-!
Shallow embedding of `src/NewsApi/ApiCaller.py` (News-API-Org): the
validation and record-construction pipeline that turns a decoded JSON
response into typed records, and proofs about its behaviour.

JSON values decoded by Python's `json` module are modelled by `JVal`
(objects as association lists; Python dicts have unique keys, and key
lookup returns the unique binding, which coincides with first-match
lookup on such lists).
-/

namespace NewsApi

/-- A decoded JSON value as handed to `ApiResponse` (floats do not occur in
any behaviour the development examines and are omitted). -/
inductive JVal where
  | null : JVal
  | bool : Bool → JVal
  | int : Int → JVal
  | str : String → JVal
  | arr : List JVal → JVal
  | obj : List (String × JVal) → JVal

/-- Python truthiness (`if author_name:` in `Authors.add_author`, and the
constant `not None` filter in `Articles.__init__`). -/
def truthy : JVal → Bool
  | .null => false
  | .bool b => b
  | .int n => n != 0
  | .str s => s != ""
  | .arr xs => !xs.isEmpty
  | .obj kvs => !kvs.isEmpty

/-- Python dict key lookup (`d['k']` / mapping-pattern key match). On the
duplicate-free lists produced by `json.loads` this is exactly dict lookup. -/
def lookup : List (String × JVal) → String → Option JVal
  | [], _ => none
  | (k, v) :: kvs, key => if k = key then some v else lookup kvs key

/-- `list.split` result of Python's `str.split(" ")` at the character-list
level: split on every single occurrence of the separator character, keeping
empty segments (so `" ".split(" ") == ["", ""]` and `"".split(" ") == [""]`). -/
def splitChars (c : Char) : List Char → List (List Char)
  | [] => [[]]
  | x :: xs =>
    match splitChars c xs with
    | [] => [[]]
    | g :: gs => if x = c then [] :: g :: gs else (x :: g) :: gs

/-- Python `s.split(" ")` (single-character separator), as used by
`Authors.add_author`. -/
def pySplit (s : String) (c : Char) : List String :=
  (splitChars c s.data).map (fun cs => ⟨cs⟩)

/-- `Author` named tuple: `(firstName, lastName)`. -/
structure Author where
  firstName : String
  lastName : String

/-- `Source` named tuple: `(id, name)`. Python named tuples perform no
runtime type check, so the fields hold whatever raw values were captured. -/
structure Source where
  id : JVal
  name : JVal

/-- `Article` named tuple. As with `Source`, no runtime type checking or
date parsing happens at construction: each field stores the raw value from
the fragment (in particular `publishedAt` keeps its wire representation). -/
structure Article where
  title : JVal
  description : JVal
  url : JVal
  urlToImage : JVal
  publishedAt : JVal
  content : JVal

/-- The value `Authors.add_author` returns: an `Author` named tuple, or a
plain Python value (`raw`): `None` (modelled as `raw .null`) on the caught
exception paths, and the argument itself, unchanged, when it is falsy. -/
inductive AuthorRet where
  | author : Author → AuthorRet
  | raw : JVal → AuthorRet

/-- `MetaData` named tuple: `(totalResults,)`; the captured value is stored
without any type check. -/
structure MetaData where
  totalResults : JVal

/-- One element of `Articles.articles`: the tuple
`(add_source(source_raw), add_author(author_raw), Article(**article_data))`. -/
structure ArticleRecord where
  source : Option Source
  author : AuthorRet
  article : Article

/-- `Authors.add_author`. A falsy argument (`None`, `""`, `0`, `[]`, ...) is
returned unchanged; a truthy string is split on `" "` and fed to
`Author(*tokens)`, which raises `TypeError` unless exactly two tokens
result (tokens may be empty strings); the `except` clauses catch every
exception (`TypeError` from the two-field constructor, `AttributeError`
from `.split` on a truthy non-string) and return `None`. -/
def add_author (v : JVal) : AuthorRet :=
  if truthy v then
    match v with
    | .str s =>
      match pySplit s ' ' with
      | [first, second] => .author ⟨first, second⟩
      | _ => .raw .null
    | _ => .raw .null
  else .raw v

/-- `Sources.__make_source`: mapping pattern `case {'id': ident, 'name': name}`
(key presence only, values unconstrained, extra keys ignored), else
`SourceError`. -/
def make_source (v : JVal) : Except String Source :=
  match v with
  | .obj kvs =>
    match lookup kvs "id", lookup kvs "name" with
    | some i, some n => .ok ⟨i, n⟩
    | _, _ => .error "Unknown Source Format."
  | _ => .error "Unknown Source Format."

/-- `Sources.add_source`: every exception from `__make_source` is caught and
logged; the caller sees `Source` or `None`. -/
def add_source (v : JVal) : Option Source :=
  (make_source v).toOption

/-- The keyword parameters of the `Article` named tuple constructor. -/
def articleFields : List String :=
  ["title", "description", "url", "urlToImage", "publishedAt", "content"]

/-- `Article(**article_data)`: succeeds exactly when the captured keys are
exactly the six field names (a missing field or an unexpected keyword raises
`TypeError`); values are stored untouched. -/
def mkArticle (kvs : List (String × JVal)) : Option Article :=
  match lookup kvs "title", lookup kvs "description", lookup kvs "url",
        lookup kvs "urlToImage", lookup kvs "publishedAt", lookup kvs "content" with
  | some t, some d, some u, some ui, some p, some c =>
    if kvs.all (fun kv => articleFields.contains kv.1) then
      some ⟨t, d, u, ui, p, c⟩
    else none
  | _, _, _, _, _, _ => none

/-- The `**article_data` capture of the article mapping pattern: every item
whose key is neither `source` nor `author`. -/
def restKeys (kvs : List (String × JVal)) : List (String × JVal) :=
  kvs.filter (fun kv => !(kv.1 == "source") && !(kv.1 == "author"))

/-- `Articles.__make_article_record`: pattern
`case {'source':{**source_raw}, 'author':author_raw, **article_data}`
(requires a mapping with a `source` key holding a mapping and an `author`
key of any shape); on match, builds the record tuple, with the `TypeError`
from `Article(**article_data)` caught and turned into `None`; on pattern
mismatch returns `None`. -/
def make_article_record (v : JVal) : Option ArticleRecord :=
  match v with
  | .obj kvs =>
    match lookup kvs "source", lookup kvs "author" with
    | some (.obj srcKvs), some authorRaw =>
      match mkArticle (restKeys kvs) with
      | some art => some ⟨add_source (.obj srcKvs), add_author authorRaw, art⟩
      | none => none
    | _, _ => none
  | _ => none

/-- Python `not None`, the (element-independent) filter expression of the
generator in `Articles.__init__`. -/
def pyNot (v : JVal) : Bool := !truthy v

/-- `Articles.__init__`: `self.articles` after
`extend(self.__make_article_record(a) for a in articles if not None)`.
The filter clause tests the constant `not None`, not the element. -/
def mkArticles (articles : List JVal) : List (Option ArticleRecord) :=
  (articles.filter (fun _ => pyNot .null)).map make_article_record

/-- Python `repr` of a decoded JSON value, as `'%s'` interpolation uses it
for values nested inside containers (string keys and elements are quoted;
dicts render between braces). Only the scalar cases are ever inspected by a
theorem below; the container cases are rendered for completeness. -/
def pyRepr : JVal → String
  | .null => "None"
  | .bool true => "True"
  | .bool false => "False"
  | .int n => toString n
  | .str s => "\x27" ++ s ++ "\x27"
  | .arr xs => "[" ++ String.intercalate ", " (xs.attach.map (fun x => pyRepr x.1)) ++ "]"
  | .obj kvs =>
    "\x7b" ++
      String.intercalate ", "
        (kvs.attach.map (fun kv => "\x27" ++ kv.1.1 ++ "\x27: " ++ pyRepr kv.1.2)) ++
    "\x7d"
decreasing_by
  · have h := List.sizeOf_lt_of_mem x.2
    simp only [JVal.arr.sizeOf_spec]
    omega
  · have h := List.sizeOf_lt_of_mem kv.2
    have h2 : sizeOf kv.1.2 < sizeOf kv.1 := by
      obtain ⟨⟨k, v⟩, hm⟩ := kv
      simp
    simp only [JVal.obj.sizeOf_spec]
    omega

/-- Python `str` (the `%s` conversion): like `repr` except that a top-level
string renders as itself, unquoted. -/
def pyStr : JVal → String
  | .null => "None"
  | .bool true => "True"
  | .bool false => "False"
  | .int n => toString n
  | .str s => s
  | .arr xs => pyRepr (.arr xs)
  | .obj kvs => pyRepr (.obj kvs)

/-- First case of `ApiResponse.__match_response`:
`case {'status':'ok', 'totalResults':total_results, 'articles':[*articles]}`.
The mapping pattern only requires the three keys (extra keys are ignored);
`'ok'` is a literal match, `total_results` a bare capture (no type check),
and `[*articles]` a sequence pattern (a JSON list, of any contents). -/
def try_success (v : JVal) : Option (MetaData × List (Option ArticleRecord)) :=
  match v with
  | .obj kvs =>
    match lookup kvs "status", lookup kvs "totalResults", lookup kvs "articles" with
    | some (.str "ok"), some tr, some (.arr articles) => some (⟨tr⟩, mkArticles articles)
    | _, _, _ => none
  | _ => none

/-- Second case of `ApiResponse.__match_response`:
`case {'status':'error', 'code':code, 'message':message}` raises
`ResponseError('Error Code: %s\nMessage: %s' % (code, message))`. -/
def try_error (v : JVal) : Option String :=
  match v with
  | .obj kvs =>
    match lookup kvs "status", lookup kvs "code", lookup kvs "message" with
    | some (.str "error"), some code, some msg =>
      some ("Error Code: " ++ pyStr code ++ "\nMessage: " ++ pyStr msg)
    | _, _, _ => none
  | _ => none

/-- `ApiResponse.__match_response`: the three `match` cases in source order;
an uncaught `ResponseError` is modelled as `Except.error` carrying the
exception message. -/
def match_response (v : JVal) : Except String (MetaData × List (Option ArticleRecord)) :=
  match try_success v with
  | some r => .ok r
  | none =>
    match try_error v with
    | some e => .error e
    | none => .error ("Not yet patterned response: " ++ pyRepr v)

/-- The shape accepted by the first (success) case of
`ApiResponse.__match_response`, written out as a predicate. -/
def isSuccessShape (v : JVal) : Bool :=
  match v with
  | .obj kvs =>
    (match lookup kvs "status" with | some (.str s) => s == "ok" | _ => false) &&
    (lookup kvs "totalResults").isSome &&
    (match lookup kvs "articles" with | some (.arr _) => true | _ => false)
  | _ => false

/-- The shape accepted by the second (reported-error) case of
`ApiResponse.__match_response`, written out as a predicate. -/
def isErrorShape (v : JVal) : Bool :=
  match v with
  | .obj kvs =>
    (match lookup kvs "status" with | some (.str s) => s == "error" | _ => false) &&
    (lookup kvs "code").isSome &&
    (lookup kvs "message").isSome
  | _ => false

/-- Spec-side statement of the structural condition of 4.3, amended to what
the code checks: a mapping with a `source` key holding a mapping, an
`author` key of any shape, and remaining keys exactly the six `Article`
field names (values of any type). -/
def specArticleShape (v : JVal) : Bool :=
  match v with
  | .obj kvs =>
    (match lookup kvs "source" with | some (.obj _) => true | _ => false) &&
    (lookup kvs "author").isSome &&
    (articleFields.all (fun f => (lookup (restKeys kvs) f).isSome)) &&
    ((restKeys kvs).all (fun kv => articleFields.contains kv.1))
  | _ => false

/-- Substring occurrence at the character-list level. -/
def startsWithChars : List Char → List Char → Bool
  | _, [] => true
  | [], _ :: _ => false
  | c :: cs, d :: ds => c == d && startsWithChars cs ds

/-- Substring containment at the character-list level. -/
def containsChars : List Char → List Char → Bool
  | [], ns => ns.isEmpty
  | c :: cs, ns => startsWithChars (c :: cs) ns || containsChars cs ns

/-- `n` occurs as a contiguous substring of `h`. -/
def strContains (h n : String) : Bool :=
  containsChars h.data n.data

lemma add_author_str (s : String) :
    add_author (.str s) =
      (if s = "" then .raw (.str "") else
        match pySplit s ' ' with
        | [a, b] => AuthorRet.author ⟨a, b⟩
        | _ => .raw .null) := by
  by_cases hs : s = "" <;> simp [add_author, truthy, hs]

lemma aa_author_iff (v : JVal) (f l : String) :
    add_author v = .author ⟨f, l⟩ ↔ ∃ s, v = .str s ∧ pySplit s ' ' = [f, l] := by
  cases v with
  | str s =>
    rw [add_author_str]
    by_cases hs : s = ""
    · subst hs
      simp [pySplit, splitChars]
    · simp only [hs, if_false, JVal.str.injEq]
      have hrw : (∃ s1, s = s1 ∧ pySplit s1 ' ' = [f, l]) ↔ pySplit s ' ' = [f, l] := by
        constructor
        · rintro ⟨s1, rfl, hp⟩; exact hp
        · intro hp; exact ⟨s, rfl, hp⟩
      rw [hrw]
      rcases h : pySplit s ' ' with _ | ⟨a, _ | ⟨b, _ | _⟩⟩ <;> simp [h]
  | null => simp [add_author, truthy]
  | bool b => cases b <;> simp [add_author, truthy]
  | int n => by_cases hn : n = 0 <;> simp [add_author, truthy, hn]
  | arr xs => cases xs <;> simp [add_author, truthy]
  | obj kvs => cases kvs <;> simp [add_author, truthy]

lemma mkArticle_isSome (kvs : List (String × JVal)) :
    (mkArticle kvs).isSome =
      ((articleFields.all fun f => (lookup kvs f).isSome) &&
        kvs.all fun kv => articleFields.contains kv.1) := by
  unfold mkArticle
  cases h1 : lookup kvs "title" <;>
  cases h2 : lookup kvs "description" <;>
  cases h3 : lookup kvs "url" <;>
  cases h4 : lookup kvs "urlToImage" <;>
  cases h5 : lookup kvs "publishedAt" <;>
  cases h6 : lookup kvs "content" <;>
  cases hb : (kvs.all fun kv => articleFields.contains kv.1) <;>
    simp only [h1, h2, h3, h4, h5, h6, hb] <;>
    simp [articleFields, h1, h2, h3, h4, h5, h6]

lemma try_success_isSome (v : JVal) :
    (try_success v).isSome = isSuccessShape v := by
  cases v with
  | obj kvs =>
    unfold try_success isSuccessShape
    cases h1 : lookup kvs "status" with
    | none => simp [h1]
    | some j1 =>
      cases j1 with
      | str s =>
        by_cases hs : s = "ok"
        · subst hs
          cases h2 : lookup kvs "totalResults" with
          | none => simp [h1, h2]
          | some tr =>
            cases h3 : lookup kvs "articles" with
            | none => simp [h1, h2, h3]
            | some j3 => cases j3 <;> simp [h1, h2, h3]
        · cases h2 : lookup kvs "totalResults" <;>
          cases h3 : lookup kvs "articles" <;>
            simp [h1, h2, h3, hs]
      | null =>
        cases h2 : lookup kvs "totalResults" <;>
        cases h3 : lookup kvs "articles" <;>
          simp [h1, h2, h3]
      | bool b =>
        cases h2 : lookup kvs "totalResults" <;>
        cases h3 : lookup kvs "articles" <;>
          simp [h1, h2, h3]
      | int n =>
        cases h2 : lookup kvs "totalResults" <;>
        cases h3 : lookup kvs "articles" <;>
          simp [h1, h2, h3]
      | arr xs =>
        cases h2 : lookup kvs "totalResults" <;>
        cases h3 : lookup kvs "articles" <;>
          simp [h1, h2, h3]
      | obj kvs2 =>
        cases h2 : lookup kvs "totalResults" <;>
        cases h3 : lookup kvs "articles" <;>
          simp [h1, h2, h3]
  | null => rfl
  | bool b => rfl
  | int n => rfl
  | str s => rfl
  | arr xs => rfl

lemma shapes_not_both (v : JVal) :
    ¬(isSuccessShape v = true ∧ isErrorShape v = true) := by
  rintro ⟨hsucc, herr⟩
  cases v <;> simp [isSuccessShape, isErrorShape] at hsucc herr
  case obj kvs =>
    obtain ⟨⟨hs1, _⟩, _⟩ := hsucc
    obtain ⟨⟨he1, _⟩, _⟩ := herr
    cases h1 : lookup kvs "status" with
    | none => rw [h1] at hs1; simp at hs1
    | some j1 =>
      rw [h1] at hs1 he1
      cases j1 <;> simp at hs1 he1
      rw [hs1] at he1
      simp at he1

lemma match_response_ok_iff (v : JVal) :
    (∃ r, match_response v = .ok r) ↔ isSuccessShape v = true := by
  rw [← try_success_isSome]
  unfold match_response
  cases h : try_success v with
  | some r => simp [h]
  | none => cases he : try_error v <;> simp [h, he]

lemma match_response_error_of_not_success (v : JVal)
    (h : isSuccessShape v = false) : ∃ e, match_response v = .error e := by
  have hts : (try_success v).isSome = false := by rw [try_success_isSome, h]
  unfold match_response
  cases hs : try_success v with
  | some r => rw [hs] at hts; simp at hts
  | none => cases he : try_error v <;> simp [hs, he]

lemma mar_isSome (v : JVal) :
    (make_article_record v).isSome = specArticleShape v := by
  cases v with
  | obj kvs =>
    unfold make_article_record specArticleShape
    cases h1 : lookup kvs "source" with
    | none => simp [h1]
    | some j1 =>
      cases h2 : lookup kvs "author" with
      | none => cases j1 <;> simp [h1, h2]
      | some a =>
        cases j1 <;> simp only [h1, h2] <;> try simp
        case obj srcKvs =>
          have hmk := mkArticle_isSome (restKeys kvs)
          cases hm : mkArticle (restKeys kvs) <;>
            rw [hm] at hmk <;> simp at hmk <;> simp [hm, hmk] <;> exact hmk
  | null => rfl
  | bool b => rfl
  | int n => rfl
  | str s => rfl
  | arr xs => rfl

/-- Claim C1 (code bug, evaluation at the failing input): for the success
document with the single malformed article `{}`, the record list kept by the
resulting `ApiResult` is `[none]`, not `[]`: the generator filter `if not
None` in `Articles.__init__` never removes a dropped element, so the caller
sees a `None` entry at the malformed position instead of the claimed
subsequence of built records. -/
theorem claim1_dropped_article_remains_as_none :
    match_response (.obj [("status", .str "ok"), ("totalResults", .int 1),
      ("articles", .arr [.obj []])]) =
      .ok (⟨.int 1⟩, [none]) ∧
    ([(none : Option ArticleRecord)] = ([] : List (Option ArticleRecord))) = False := by
  constructor
  · rfl
  · simp

/-- Claim C2 counterexample: a mapping with the success keys but a
non-integer `totalResults` (here the string `"x"`) still takes branch 1 —
`total_results` is a bare capture pattern, never type-checked — refuting
the claim that such an input does not take branch 1. -/
theorem claim2_counterexample :
    match_response (.obj [("status", .str "ok"), ("totalResults", .str "x"),
      ("articles", .arr [])]) =
      .ok (⟨.str "x"⟩, []) := rfl

/-- Claim C2 (amended): `__match_response` classifies every input into
exactly one of three mutually exclusive branches in precedence order:
branch 1 (a mapping with `status == "ok"`, a `totalResults` key — its value
captured without a type check — and a list `articles`) returns a result and
never raises; the reported-error and unrecognized branches always raise.
A non-list `articles` value keeps an input out of branch 1, but a
non-integer `totalResults` does not. -/
theorem claim2_classification (v : JVal) :
    ((∃ r, match_response v = .ok r) ↔ isSuccessShape v = true)
  ∧ (isSuccessShape v = false → ∃ e, match_response v = .error e)
  ∧ ¬(isSuccessShape v = true ∧ isErrorShape v = true) :=
  ⟨match_response_ok_iff v, match_response_error_of_not_success v, shapes_not_both v⟩

/-- Claim C2 witness: the classification theorem applied at a concrete
non-success input: its branch always raises. -/
theorem claim2_witness :
    ∃ e, match_response (.str "nope") = .error e :=
  (claim2_classification (.str "nope")).2.1 rfl

/-- Claim C3 counterexample: an article fragment whose six `Article` fields
all carry wrong types (`title` an integer, `publishedAt` a non-date string)
is not dropped: the named-tuple constructor performs no type check and no
timestamp parsing, so a full record is built, refuting the claim that a
mistyped field invalidates the record. -/
theorem claim3_counterexample :
    make_article_record (.obj
      [("source", .obj [("id", .null), ("name", .str "CNN")]),
       ("author", .str "Jane Doe"),
       ("title", .int 1), ("description", .str ""), ("url", .str ""),
       ("urlToImage", .str ""), ("publishedAt", .str "not-a-date"),
       ("content", .str "x")]) =
      some ⟨some ⟨.null, .str "CNN"⟩, .author ⟨"Jane", "Doe"⟩,
            ⟨.int 1, .str "", .str "", .str "", .str "not-a-date", .str "x"⟩⟩ := rfl

/-- Claim C3 (amended): `__make_article_record` returns a record exactly when
the raw fragment is a mapping containing a `source` sub-mapping, an `author`
field, and remaining keys exactly the six `Article` field names — with no
type check on the values and `publishedAt` stored as its raw wire value
rather than parsed; absence of any of the six keys (for example a fragment
missing `content`), or an extra key, drops the whole record, including any
well-formed `Source` and `Author`. -/
theorem claim3_record_shape (v : JVal) :
    (make_article_record v).isSome = specArticleShape v :=
  mar_isSome v

/-- Claim C4 counterexample: `"Jane "` does not split into two non-empty
tokens, yet `add_author` returns `Author("Jane", "")` rather than no
author — `"Jane ".split(" ") == ["Jane", ""]` and the named tuple accepts
the empty second token. -/
theorem claim4_counterexample :
    add_author (.str "Jane ") = .author ⟨"Jane", ""⟩ := rfl

/-- Claim C4 (amended): `add_author` maps a string that splits on the space
character into exactly two tokens — tokens may be empty — to
`Author(token0, token1)`, and produces no `Author` in every other case; in
particular `"Jane Doe"` yields `Author("Jane", "Doe")`, while `"Jane"`,
`""`, `null` and `"Jane Middle Doe"` all yield no author. -/
theorem claim4_author_split :
    (∀ v f l, add_author v = .author ⟨f, l⟩ ↔
        ∃ s, v = .str s ∧ pySplit s ' ' = [f, l])
  ∧ add_author (.str "Jane Doe") = .author ⟨"Jane", "Doe"⟩
  ∧ (∀ a, add_author (.str "Jane") ≠ .author a)
  ∧ (∀ a, add_author (.str "") ≠ .author a)
  ∧ (∀ a, add_author .null ≠ .author a)
  ∧ (∀ a, add_author (.str "Jane Middle Doe") ≠ .author a) := by
  refine ⟨aa_author_iff, rfl, ?_, ?_, ?_, ?_⟩ <;> intro a h <;> exact nomatch h

/-- Claim C5 counterexample: the single-space string is truthy and splits
into `["", ""]`, so `add_author` produces `Author("", "")`, an author both
of whose name components are empty, refuting the claimed non-emptiness
invariant. -/
theorem claim5_counterexample :
    add_author (.str " ") = .author ⟨"", ""⟩ := rfl

/-- Claim C5 (amended): every `Author` value the pipeline produces through
`add_author` has exactly two name components, namely the two tokens of the
input string split on the space character; the components may be empty
strings. -/
theorem claim5_author_components (v : JVal) (a : Author)
    (h : add_author v = .author a) :
    ∃ s, v = .str s ∧ (pySplit s ' ').length = 2 ∧
      pySplit s ' ' = [a.firstName, a.lastName] := by
  obtain ⟨f, l⟩ := a
  obtain ⟨s, rfl, hs⟩ := (aa_author_iff v f l).mp h
  exact ⟨s, rfl, by rw [hs]; rfl, hs⟩

/-- Claim C5 witness: the component theorem applied at `"Jane Doe"`. -/
theorem claim5_witness :
    ∃ s, JVal.str "Jane Doe" = .str s ∧ (pySplit s ' ').length = 2 ∧
      pySplit s ' ' = ["Jane", "Doe"] :=
  claim5_author_components (.str "Jane Doe") ⟨"Jane", "Doe"⟩ rfl

/-- Claim C6 counterexample: a mapping with an `id` key and a non-string
`name` value (here the integer 42) is accepted — the mapping pattern checks
key presence only — so `add_source` returns `Source(null, 42)` instead of
the claimed absence for a non-string name. -/
theorem claim6_counterexample :
    add_source (.obj [("id", .null), ("name", .int 42)]) =
      some ⟨.null, .int 42⟩ := rfl

/-- Claim C6 (amended): `add_source` returns `Source(id, name)` exactly when
the raw value is a mapping containing at least the keys `id` and `name`,
with extra keys ignored and the two values unconstrained (in particular a
non-string `name` is accepted and stored); for a missing `id` or `name` key
or a non-mapping value it returns no source, and it never raises (every
exception of `__make_source` is caught). -/
theorem claim6_source_shape (v : JVal) (s : Source) :
    add_source v = some s ↔
      ∃ kvs, v = .obj kvs ∧ lookup kvs "id" = some s.id ∧
        lookup kvs "name" = some s.name := by
  obtain ⟨i, n⟩ := s
  cases v with
  | obj kvs =>
    unfold add_source make_source
    cases h1 : lookup kvs "id" <;> cases h2 : lookup kvs "name" <;>
      simp [h1, h2, Except.toOption, and_comm]
  | null => simp [add_source, make_source, Except.toOption]
  | bool b => simp [add_source, make_source, Except.toOption]
  | int m => simp [add_source, make_source, Except.toOption]
  | str t => simp [add_source, make_source, Except.toOption]
  | arr xs => simp [add_source, make_source, Except.toOption]

/-- Claim C6 witness: the shape theorem applied at the well-formed source
fragment of P4. -/
theorem claim6_witness :
    add_source (.obj [("id", .str "cnn"), ("name", .str "CNN")]) =
      some ⟨.str "cnn", .str "CNN"⟩ :=
  (claim6_source_shape (.obj [("id", .str "cnn"), ("name", .str "CNN")])
    ⟨.str "cnn", .str "CNN"⟩).mpr ⟨_, rfl, rfl, rfl⟩

/-- Claim C7 (confirmed): the reported-error document of P6 makes
`__match_response` raise `ResponseError` whose message contains both the
upstream code `426` and the upstream message `API key invalid` verbatim,
and the caller receives no result on this path (the outcome is the error,
not an `ApiResult`). -/
theorem claim7_fatal_propagation :
    match_response (.obj [("status", .str "error"), ("code", .int 426),
      ("message", .str "API key invalid")]) =
      .error "Error Code: 426\nMessage: API key invalid"
  ∧ strContains "Error Code: 426\nMessage: API key invalid" "426" = true
  ∧ strContains "Error Code: 426\nMessage: API key invalid" "API key invalid" = true :=
  ⟨rfl, rfl, rfl⟩

/-- Claim C8 (confirmed): the generator filter `if not None` in
`Articles.__init__` is vacuously true, so the list `Articles.articles` is
exactly the input mapped through `__make_article_record` — same length as
the input `articles` sequence, with each dropped element contributing a
`None` entry at its original position. -/
theorem claim8_vacuous_filter (xs : List JVal) :
    mkArticles xs = xs.map make_article_record ∧
      (mkArticles xs).length = xs.length := by
  have h : mkArticles xs = xs.map make_article_record := by
    unfold mkArticles
    rw [List.filter_eq_self.mpr]
    intro a _
    rfl
  exact ⟨h, by rw [h, List.length_map]⟩

/-- Claim C9 (confirmed): response parsing is a pure function of the raw
document — no hidden counters, randomness or external state — so parsing
structurally equal documents yields structurally equal results. -/
theorem claim9_deterministic (v w : JVal) (h : v = w) :
    match_response v = match_response w := by rw [h]

/-- Claim C9 witness: determinism applied to the concrete P7 document. -/
theorem claim9_witness :
    match_response (.obj [("status", .str "ok"), ("totalResults", .int 37),
      ("articles", .arr [])]) =
    match_response (.obj [("status", .str "ok"), ("totalResults", .int 37),
      ("articles", .arr [])]) :=
  claim9_deterministic _ _ rfl

/-- Claim C10 (confirmed): top-level classification is by key presence, not
exact shape: any mapping whose `status`, `totalResults` and `articles`
bindings satisfy the success pattern is classified success whatever other
keys it carries, and any mapping whose `status`, `code` and `message`
bindings satisfy the error pattern is classified reported-error whatever
other keys it carries. -/
theorem claim10_extra_keys_ignored :
    (∀ (kvs : List (String × JVal)) (tr : JVal) (l : List JVal),
      lookup kvs "status" = some (.str "ok") →
      lookup kvs "totalResults" = some tr →
      lookup kvs "articles" = some (.arr l) →
      match_response (.obj kvs) = .ok (⟨tr⟩, mkArticles l))
  ∧ (∀ (kvs : List (String × JVal)) (c m : JVal),
      lookup kvs "status" = some (.str "error") →
      lookup kvs "code" = some c →
      lookup kvs "message" = some m →
      match_response (.obj kvs) =
        .error ("Error Code: " ++ pyStr c ++ "\nMessage: " ++ pyStr m)) := by
  constructor
  · intro kvs tr l h1 h2 h3
    simp [match_response, try_success, h1, h2, h3]
  · intro kvs c m h1 h2 h3
    simp [match_response, try_success, try_error, h1, h2, h3]

/-- Claim C10 witness: both halves applied to concrete documents carrying an
extra top-level key. -/
theorem claim10_witness :
    match_response (.obj [("status", .str "ok"), ("extra", .null),
      ("totalResults", .int 5), ("articles", .arr [])]) = .ok (⟨.int 5⟩, [])
  ∧ match_response (.obj [("status", .str "error"), ("code", .int 1),
      ("surplus", .bool true), ("message", .str "m")]) =
      .error "Error Code: 1\nMessage: m" :=
  ⟨claim10_extra_keys_ignored.1
      [("status", .str "ok"), ("extra", .null), ("totalResults", .int 5),
       ("articles", .arr [])] (.int 5) [] rfl rfl rfl,
   claim10_extra_keys_ignored.2
      [("status", .str "error"), ("code", .int 1), ("surplus", .bool true),
       ("message", .str "m")] (.int 1) (.str "m") rfl rfl rfl⟩

end NewsApi
